/-
  Verification development for the scix-client repository.

  Shallow embedding of the core components described in the spec:
  the Transport Adapter's HTTP outcome classification (src/client.rs),
  the Quota Governor (src/rate_limit.rs), and the MCP Protocol Loop and
  Tool Dispatch Table (src/mcp.rs).

  Modelling conventions:
  - machine integers are Nat with explicit bounds where overflow matters;
  - time (std/tokio Instant, Duration) is modelled as Rat;
  - fallible operations return Option/Except;
  - HTTP headers are association lists of (name, value) strings;
  - the external collaborators declared out of scope by the spec
    (serde_json's JSON text parser, the domain response parsers behind the
    gateway operations) are abstracted as function parameters, while every
    piece of in-scope logic is translated from the source.
-/
import Mathlib

namespace Scix

/-! ## Rust integer parsing

`str::parse::<uN>()` accepts an optional leading `+` followed by one or
more ASCII digits, and fails on empty input, any other character, or
overflow past the type's maximum. -/

/-- Value of a list of ASCII digit characters, most significant first. -/
def digitsVal (cs : List Char) : Nat :=
  cs.foldl (fun acc c => acc * 10 + (c.toNat - 48)) 0

/-- `str::parse::<uN>()` where `bound` is one past the maximum value
(`2^32` for `u32`, `2^64` for `u64`). -/
def rustParseUInt (bound : Nat) (s : String) : Option Nat :=
  let cs := s.toList
  let digits := match cs with
    | '+' :: rest => rest
    | other => other
  if digits ≠ [] ∧ digits.all Char.isDigit then
    let v := digitsVal digits
    if v < bound then some v else none
  else
    none

/-! ## HTTP headers

reqwest's `HeaderMap::get(name)` looks a (lowercase) header name up
case-insensitively; `HeaderValue::to_str()` succeeds only when every byte
of the value is visible ASCII or space (0x20 to 0x7e). -/

/-- ASCII lowercasing of one character (Rust's `to_lowercase` restricted
to ASCII, which covers every name this repository lowercases). -/
def charToLower (c : Char) : Char :=
  if 65 ≤ c.toNat ∧ c.toNat ≤ 90 then Char.ofNat (c.toNat + 32) else c

/-- ASCII lowercasing of a string. -/
def strToLower (s : String) : String :=
  String.mk (s.toList.map charToLower)

/-- An HTTP header map, as an association list in insertion order. -/
abbrev Headers := List (String × String)

/-- `HeaderMap::get`: first value whose name matches case-insensitively. -/
def headerGet (hs : Headers) (name : String) : Option String :=
  (hs.find? (fun kv => strToLower kv.1 = strToLower name)).map (·.2)

/-- `HeaderValue::to_str()`: succeeds iff all chars are visible ASCII or space. -/
def headerToStr (v : String) : Option String :=
  if v.toList.all (fun c => 32 ≤ c.toNat ∧ c.toNat ≤ 126) then some v else none

/-! ## Error taxonomy (src/error.rs, enum SciXError) -/

/-- `SciXError` from src/error.rs. `Http` carries the display text of the
underlying reqwest error; `RateLimited` carries the retry-after duration in
whole seconds (`Duration::from_secs`). -/
inductive SciXError : Type where
  | Http (msg : String)
  | Api (status : Nat) (message : String)
  | AuthRequired
  | RateLimited (retryAfter : Option Nat)
  | Parse (msg : String)
  | InvalidQuery (msg : String)
  | NotFound (msg : String)
  | Config (msg : String)
  | Json (msg : String)
deriving DecidableEq, Repr

/-- The `thiserror`-derived `Display` implementation for `SciXError`
(the `#[error("...")]` attribute strings in src/error.rs). -/
def SciXError.display : SciXError → String
  | .Http m => "HTTP request failed: " ++ m
  | .Api status message =>
      "API error (HTTP " ++ toString status ++ "): " ++ message
  | .AuthRequired =>
      "Authentication required: set SCIX_API_TOKEN (or ADS_API_TOKEN) environment variable or pass token to SciXClient::new()"
  | .RateLimited retryAfter =>
      -- `{retry_after:?}` debug-formats the Option<Duration>
      "Rate limited, retry after " ++
        (match retryAfter with
         | some s => "Some(" ++ toString s ++ "s)"
         | none => "None")
  | .Parse m => "Failed to parse response: " ++ m
  | .InvalidQuery m => "Invalid query: " ++ m
  | .NotFound m => "Not found: " ++ m
  | .Config m => "Configuration error: " ++ m
  | .Json m => "JSON error: " ++ m

/-! ## Transport Adapter outcome classification (src/client.rs) -/

/-- An HTTP response as seen by `handle_response`: numeric status
(`u16`), header map, and body text. Reading the body is modelled as
total. -/
structure HttpResponse where
  status : Nat
  headers : Headers
  body : String
deriving DecidableEq, Repr

/-- The retry-after extraction inside the 429 arm of `handle_response`:
`headers.get("retry-after").and_then(to_str).and_then(parse::<u64>)
.map(Duration::from_secs)`. -/
def parseRetryAfter (hs : Headers) : Option Nat :=
  (headerGet hs "retry-after").bind headerToStr |>.bind (rustParseUInt (2 ^ 64))

/-- `handle_response` from src/client.rs: maps the HTTP status to a
success body or a classified `SciXError`. -/
def handle_response (r : HttpResponse) : Except SciXError String :=
  if 200 ≤ r.status ∧ r.status ≤ 299 then
    .ok r.body
  else if r.status = 401 then
    .error .AuthRequired
  else if r.status = 404 then
    .error (.NotFound "Resource not found")
  else if r.status = 429 then
    .error (.RateLimited (parseRetryAfter r.headers))
  else
    .error (.Api r.status r.body)

/-- What the Transport Adapter observes for one outbound call: either the
`send().await` fails before any status is received (surfaced by `?` as
`SciXError::Http` via `#[from] reqwest::Error`), or a response arrives. -/
inductive TransportEvent : Type where
  | netFailure (msg : String)
  | response (r : HttpResponse)
deriving DecidableEq, Repr

/-- Outcome of one call through the Transport Adapter
(`SciXClient::get`/`post_json`/... : the `?` on `send()` followed by
`handle_response`). -/
def executeOutcome : TransportEvent → Except SciXError String
  | .netFailure m => .error (.Http m)
  | .response r => handle_response r

/-! ## Quota Governor (src/rate_limit.rs)

`RateLimiterInner` guarded state, with `Instant` modelled as `Rat` and the
`f64` rate ceiling modelled as `Rat`.  Idealized time: `sleep(wait)` wakes
exactly `wait` later (tokio guarantees at least `wait`; every lower bound
proved here therefore also holds for the real scheduler). -/

/-- The fields of `RateLimiterInner`. -/
structure RLState where
  max_per_second : Rat
  last_request : Option Rat
  server_remaining : Option Nat
  server_reset : Option Rat
deriving DecidableEq, Repr

/-- The server-window head of `RateLimiter::acquire`: if both server
fields are known, the remaining count is 0 and `now` is before the reset
time, the caller sleeps until the reset time; otherwise it proceeds at
`now`.  Returns the time at which the local-spacing check starts. -/
def serverAdmitTime (st : RLState) (now : Rat) : Rat :=
  match st.server_remaining, st.server_reset with
  | some remaining, some reset =>
      if remaining = 0 ∧ now < reset then reset else now
  | _, _ => now

/-- The local-spacing tail of `RateLimiter::acquire`, entered at time `t`:
if less than `1 / max_per_second` has elapsed since `last_request`, sleep
for the remainder (waking at `last + min_interval`); otherwise proceed. -/
def localAdmitTime (st : RLState) (t : Rat) : Rat :=
  match st.last_request with
  | some last =>
      let minInterval := 1 / st.max_per_second
      let elapsed := t - last
      if elapsed < minInterval then last + minInterval else t
  | none => t

/-- `RateLimiter::acquire` for a single caller starting at time `now`:
server-window check first, then local spacing, then
`last_request = Some(now)` at the admission instant.  Returns the updated
state and the admission time. -/
def acquire (st : RLState) (now : Rat) : RLState × Rat :=
  let t1 := serverAdmitTime st now
  let t2 := localAdmitTime st t1
  ({ st with last_request := some t2 }, t2)

/-- The remaining-count extraction in `RateLimiter::update_from_headers`:
`headers.get("x-ratelimit-remaining").and_then(to_str).and_then(parse::<u32>)`. -/
def parseRemainingHeader (hs : Headers) : Option Nat :=
  (headerGet hs "x-ratelimit-remaining").bind headerToStr
    |>.bind (rustParseUInt (2 ^ 32))

/-- The reset-timestamp extraction in `RateLimiter::update_from_headers`:
`headers.get("x-ratelimit-reset").and_then(to_str).and_then(parse::<u64>)`. -/
def parseResetHeader (hs : Headers) : Option Nat :=
  (headerGet hs "x-ratelimit-reset").bind headerToStr
    |>.bind (rustParseUInt (2 ^ 64))

/-- `RateLimiter::update_from_headers`. `nowUnix` is
`SystemTime::now()` in whole Unix seconds and `nowInst` is
`Instant::now()`; a future reset timestamp is converted to a relative
wait and stored as an absolute monotonic wake time. -/
def update_from_headers (st : RLState) (hs : Headers)
    (nowUnix : Nat) (nowInst : Rat) : RLState :=
  let st1 := match parseRemainingHeader hs with
    | some remaining => { st with server_remaining := some remaining }
    | none => st
  match parseResetHeader hs with
  | some reset =>
      if reset > nowUnix then
        { st1 with server_reset := some (nowInst + ((reset : Rat) - (nowUnix : Rat))) }
      else st1
  | none => st1

/-! ## Cooperative interleaving model of `RateLimiter::acquire`

`acquire` holds the tokio mutex only between a `lock().await` and the
next `drop(inner)` / final return; it never holds it across a
`tokio::time::sleep`.  Each lock-to-unlock section therefore executes
atomically with respect to other callers, and a whole run of `acquire`
decomposes into the atomic phases below.  A task that slept becomes
runnable once the current time has reached its wake time; time may only
advance forward. -/

/-- Where one `acquire` caller stands between atomic phases. -/
inductive TaskPc : Type where
  /-- about to execute `self.inner.lock().await` at the top of `acquire` -/
  | ready
  /-- released the lock and sleeping until the server reset time;
  on waking it relocks and runs the local-spacing check -/
  | sleepServer (wake : Rat)
  /-- released the lock and sleeping until `last + min_interval`;
  on waking it relocks and immediately records its admission -/
  | sleepLocal (wake : Rat)
  /-- returned from `acquire`, admitted at the recorded time -/
  | finished (admittedAt : Rat)
deriving DecidableEq, Repr

/-- Global state of the interleaving model: current time, the shared
`RateLimiterInner`, and each caller's position. -/
structure CState where
  now : Rat
  inner : RLState
  tasks : List TaskPc
deriving DecidableEq, Repr

/-- The local-spacing critical section, executed with the lock held at
time `now`: either release the lock and sleep until `last + min_interval`,
or record `last_request = Some(now)` and return. -/
def localPhase (inner : RLState) (now : Rat) : RLState × TaskPc :=
  match inner.last_request with
  | some last =>
      let minInterval := 1 / inner.max_per_second
      if now - last < minInterval then
        (inner, .sleepLocal (last + minInterval))
      else
        ({ inner with last_request := some now }, .finished now)
  | none => ({ inner with last_request := some now }, .finished now)

/-- One atomic phase of task `i`'s `acquire`.  `none` when the task is not
runnable (already finished, still sleeping, or no such task). -/
def taskStep (s : CState) (i : Nat) : Option CState :=
  match s.tasks.get? i with
  | none => none
  | some pc =>
    match pc with
    | .ready =>
        -- lock; server-window check; on no server sleep continue to the
        -- local check in the same critical section
        match s.inner.server_remaining, s.inner.server_reset with
        | some remaining, some reset =>
            if remaining = 0 ∧ s.now < reset then
              some { s with tasks := s.tasks.set i (.sleepServer reset) }
            else
              let (inner, pc) := localPhase s.inner s.now
              some { s with inner := inner, tasks := s.tasks.set i pc }
        | _, _ =>
            let (inner, pc) := localPhase s.inner s.now
            some { s with inner := inner, tasks := s.tasks.set i pc }
    | .sleepServer wake =>
        -- timer fired: relock and run the local-spacing check
        if wake ≤ s.now then
          let (inner, pc) := localPhase s.inner s.now
          some { s with inner := inner, tasks := s.tasks.set i pc }
        else none
    | .sleepLocal wake =>
        -- timer fired: relock and record the admission, with no re-check
        if wake ≤ s.now then
          some { s with
                 inner := { s.inner with last_request := some s.now },
                 tasks := s.tasks.set i (.finished s.now) }
        else none
    | .finished _ => none

/-- A scheduling choice: run one task's next atomic phase, or let time
advance forward to `t`. -/
inductive Sched : Type where
  | run (i : Nat)
  | advance (t : Rat)
deriving DecidableEq, Repr

/-- Execute one scheduling choice. -/
def schedStep (s : CState) : Sched → Option CState
  | .run i => taskStep s i
  | .advance t => if s.now ≤ t then some { s with now := t } else none

/-- Execute a schedule from a starting state. -/
def runSched (s : CState) : List Sched → Option CState
  | [] => some s
  | c :: cs => (schedStep s c).bind (fun s2 => runSched s2 cs)

/-! ## JSON values (serde_json::Value)

JSON numbers are modelled as integers: every number appearing in the MCP
protocol logic of this repository (ids, rows, start, counts) is integral,
and `as_u64` on a non-integral number returns `None` anyway. -/

/-- A JSON value (`serde_json::Value`), object fields in insertion order. -/
inductive Json : Type where
  | null
  | bool (b : Bool)
  | num (n : Int)
  | str (s : String)
  | arr (elems : List Json)
  | obj (fields : List (String × Json))
deriving Repr

/-- `Value::get(key)`: `Some` field value only when the value is an object
containing the key; `None` otherwise. -/
def Json.get : Json → String → Option Json
  | .obj fields, key => (fields.find? (fun kv => kv.1 = key)).map (·.2)
  | _, _ => none

/-- `Value::index` (`value[key]`): field value, or `Null` when absent or
when the value is not an object. -/
def Json.index (j : Json) (key : String) : Json :=
  (j.get key).getD .null

/-- `Value::as_str`. -/
def Json.asStr : Json → Option String
  | .str s => some s
  | _ => none

/-- `Value::as_u64`: integral, non-negative, within `u64` range. -/
def Json.asU64 : Json → Option Nat
  | .num n => if 0 ≤ n ∧ n < 2 ^ 64 then some n.toNat else none
  | _ => none

/-- `Value::as_array`. -/
def Json.asArray : Json → Option (List Json)
  | .arr xs => some xs
  | _ => none

/-- `Value::as_bool`. -/
def Json.asBool : Json → Option Bool
  | .bool b => some b
  | _ => none

/-- Hexadecimal digit character (lowercase), for JSON string escapes. -/
def hexDigit (n : Nat) : Char :=
  if n < 10 then Char.ofNat (48 + n) else Char.ofNat (87 + n)

/-- serde_json's escaping of one character inside a JSON string literal. -/
def jsonEscapeChar (c : Char) : String :=
  if c = '"' then "\\\""
  else if c = '\\' then "\\\\"
  else if c = '\x08' then "\\b"
  else if c = '\x09' then "\\t"
  else if c = '\x0a' then "\\n"
  else if c = '\x0c' then "\\f"
  else if c = '\x0d' then "\\r"
  else if c.toNat < 32 then
    "\\u00" ++ String.mk [hexDigit (c.toNat / 16), hexDigit (c.toNat % 16)]
  else String.singleton c

/-- A JSON string literal: quotes around the escaped characters. -/
def jsonQuote (s : String) : String :=
  "\"" ++ String.join (s.toList.map jsonEscapeChar) ++ "\""

mutual

/-- Compact serialization of a JSON value: serde_json's `Display`, which
is what `writeln!("{}", response)` emits, one line per response. -/
def Json.serialize : Json → String
  | .null => "null"
  | .bool true => "true"
  | .bool false => "false"
  | .num n => toString n
  | .str s => jsonQuote s
  | .arr xs => "[" ++ serializeElems xs ++ "]"
  | .obj fs => "\x7b" ++ serializeFields fs ++ "\x7d"

/-- Comma-separated serialization of array elements. -/
def serializeElems : List Json → String
  | [] => ""
  | [x] => x.serialize
  | x :: y :: rest => x.serialize ++ "," ++ serializeElems (y :: rest)

/-- Comma-separated serialization of object fields. -/
def serializeFields : List (String × Json) → String
  | [] => ""
  | [kv] => jsonQuote kv.1 ++ ":" ++ kv.2.serialize
  | kv :: kv2 :: rest =>
      jsonQuote kv.1 ++ ":" ++ kv.2.serialize ++ "," ++ serializeFields (kv2 :: rest)

end

/-- Indentation for pretty-printed JSON. -/
def indentStr (n : Nat) : String := String.mk (List.replicate n ' ')

mutual

/-- `serde_json::to_string_pretty` (two-space indentation), at indent level
`ind`.  Never fails for the struct-shaped values this repository prints. -/
def Json.pretty (ind : Nat) : Json → String
  | .arr [] => "[]"
  | .arr (x :: xs) =>
      "[\n" ++ prettyElems (ind + 2) (x :: xs) ++ "\n" ++ indentStr ind ++ "]"
  | .obj [] => "\x7b\x7d"
  | .obj (kv :: kvs) =>
      "\x7b\n" ++ prettyFields (ind + 2) (kv :: kvs) ++ "\n" ++ indentStr ind ++ "\x7d"
  | j => j.serialize

/-- Pretty-printed array elements, one per line. -/
def prettyElems (ind : Nat) : List Json → String
  | [] => ""
  | [x] => indentStr ind ++ x.pretty ind
  | x :: y :: rest =>
      indentStr ind ++ x.pretty ind ++ ",\n" ++ prettyElems ind (y :: rest)

/-- Pretty-printed object fields, one per line. -/
def prettyFields (ind : Nat) : List (String × Json) → String
  | [] => ""
  | [kv] => indentStr ind ++ jsonQuote kv.1 ++ ": " ++ kv.2.pretty ind
  | kv :: kv2 :: rest =>
      indentStr ind ++ jsonQuote kv.1 ++ ": " ++ kv.2.pretty ind ++ ",\n" ++
        prettyFields ind (kv2 :: rest)

end

/-- Top-level `serde_json::to_string_pretty`. -/
def serdePretty (j : Json) : String := j.pretty 0

/-! ## Domain record types (src/types.rs)

Only the pieces the MCP layer reads are carried; the domain response
parsers that build them are out-of-scope collaborators per the spec. -/

/-- `Author` from src/types.rs. -/
structure Author where
  name : String
  family_name : String
  given_name : Option String
deriving DecidableEq, Repr

/-- `PdfLinkType` from src/types.rs. -/
inductive PdfLinkType : Type where
  | ArXiv
  | Publisher
  | AdsScan
  | Direct
deriving DecidableEq, Repr

/-- `PdfLink` from src/types.rs. -/
structure PdfLink where
  url : String
  link_type : PdfLinkType
  label : String
deriving DecidableEq, Repr

/-- `Paper` from src/types.rs (`year` is `u16`, `citation_count` is `u32`). -/
structure Paper where
  bibcode : String
  title : String
  authors : List Author
  year : Option Nat
  publication : Option String
  abstract_text : Option String
  doi : Option String
  arxiv_id : Option String
  identifiers : List String
  esources : List String
  citation_count : Option Nat
  doctype : Option String
  properties : List String
  pdf_links : List PdfLink
  url : String
deriving DecidableEq, Repr

/-- `SearchResponse` from src/types.rs (`num_found` is `u64`). -/
structure SearchResponse where
  papers : List Paper
  num_found : Nat
deriving DecidableEq, Repr

/-- `ExportFormat` from src/types.rs. -/
inductive ExportFormat : Type where
  | BibTeX | BibTeXAbs | AasTex | Icarus | Mnras | Soph | Ris | Endnote
  | Medlars | Ieee | Csl | DcXml | RefXml | RefAbsXml | VoTable | Rss | Custom
deriving DecidableEq, Repr

/-- `ExportFormat::from_str_loose` (case-insensitive parse). -/
def ExportFormat.from_str_loose (s : String) : Option ExportFormat :=
  match strToLower s with
  | "bibtex" => some .BibTeX
  | "bibtexabs" => some .BibTeXAbs
  | "aastex" => some .AasTex
  | "icarus" => some .Icarus
  | "mnras" => some .Mnras
  | "soph" => some .Soph
  | "ris" => some .Ris
  | "endnote" => some .Endnote
  | "medlars" => some .Medlars
  | "ieee" => some .Ieee
  | "csl" => some .Csl
  | "dcxml" => some .DcXml
  | "refxml" => some .RefXml
  | "refabsxml" => some .RefAbsXml
  | "votable" => some .VoTable
  | "rss" => some .Rss
  | "custom" => some .Custom
  | _ => none

/-- `SortDirection` from src/types.rs. -/
inductive SortDirection : Type where
  | Asc
  | Desc
deriving DecidableEq, Repr

/-- `Sort` from src/types.rs. -/
structure SortSpec where
  field : String
  direction : SortDirection
deriving DecidableEq, Repr

/-! ## MCP constants (src/mcp.rs, src/parse.rs) -/

/-- `DEFAULT_SEARCH_FIELDS` from src/parse.rs. -/
def DEFAULT_SEARCH_FIELDS : String :=
  "bibcode,title,author,year,pub,abstract,doi,identifier,doctype,esources,citation_count,property"

/-- `RICH_FIELDS` from src/mcp.rs. -/
def RICH_FIELDS : String :=
  "bibcode,title,author,year,pub,abstract,doi,identifier,doctype,esources,citation_count,property,read_count,volume,page,keyword,aff"

/-- `env!("CARGO_PKG_VERSION")`: the crate version, as carried in the
`User-Agent: scix-client/0.1.0` string in src/client.rs. -/
def CARGO_PKG_VERSION : String := "0.1.0"

/-- Rust `char::is_whitespace` (the Unicode White_Space property). -/
def isRustWhitespace (c : Char) : Bool :=
  [0x09, 0x0a, 0x0b, 0x0c, 0x0d, 0x20, 0x85, 0xa0, 0x1680,
   0x2028, 0x2029, 0x202f, 0x205f, 0x3000].contains c.toNat
  || (0x2000 ≤ c.toNat && c.toNat ≤ 0x200a)

/-- Rust `str::split_whitespace`: split on Unicode whitespace, dropping
empty pieces. -/
def splitWhitespaceRust (s : String) : List String :=
  (s.split isRustWhitespace).filter (· ≠ "")

/-- `line.trim().is_empty()`: true iff every character is whitespace. -/
def trimIsEmpty (s : String) : Bool :=
  s.toList.all isRustWhitespace

/-! ## Gateway operations

The client methods invoked by the Tool Dispatch Table
(src/search.rs, src/export.rs, src/metrics.rs, src/libraries.rs,
src/network.rs, src/objects.rs, src/references.rs, src/links.rs).  The
spec places their internals (HTTP plumbing plus domain parsing) outside
the dispatch layer, so they are abstracted as one oracle function each;
structured results that the dispatch layer pretty-prints are returned as
their serde serialization.  Counting invocations of these oracles counts
outbound calls. -/

structure Gateway where
  search_with_options :
    String → String → Option SortSpec → Nat → Nat → Except SciXError SearchResponse
  bigquery : List String → Option String → Except SciXError SearchResponse
  exportOp : List String → ExportFormat → Except SciXError String
  metricsOp : List String → Except SciXError Json
  list_libraries : Unit → Except SciXError Json
  get_library : String → Except SciXError Json
  create_library : String → String → Bool → Except SciXError Json
  delete_library : String → Except SciXError Unit
  edit_library : String → Option String → Option String → Option Bool → Except SciXError Unit
  get_permissions : String → Except SciXError Json
  update_permissions_op : String → String → String → Except SciXError Unit
  transfer_library : String → String → Except SciXError Unit
  add_documents : String → List String → Except SciXError Unit
  remove_documents : String → List String → Except SciXError Unit
  get_annotation_op : String → String → Except SciXError String
  set_annotation_op : String → String → String → Except SciXError Unit
  delete_annotation_op : String → String → Except SciXError Unit
  library_operation : String → String → Option (List String) → Except SciXError Json
  add_documents_by_query : String → String → Option Nat → Except SciXError Nat
  citation_helper : List String → Except SciXError Json
  author_network : List String → Except SciXError Json
  paper_network : List String → Except SciXError Json
  resolve_objects : List String → Except SciXError Json
  resolve_references : List String → Except SciXError Json
  resolve_links : String → Option String → Except SciXError Json

/-! ## Result formatting (src/mcp.rs) -/

/-- One numbered entry of `format_search_results`. -/
def formatResultEntry (start i : Nat) (paper : Paper) : String :=
  let authors_str :=
    if paper.authors.length > 3 then
      (match paper.authors with
       | a :: _ => a.family_name
       | [] => "") ++ " et al."
    else
      String.intercalate ", " (paper.authors.map (·.family_name))
  toString (start + i + 1) ++ ". " ++ paper.title ++ " (" ++
    ((paper.year.map (fun y => toString y)).getD "") ++ ")\n   " ++
    authors_str ++ "\n   Bibcode: " ++ paper.bibcode ++ "\n" ++
  (match paper.doi with
   | some doi => "   DOI: " ++ doi ++ "\n"
   | none => "") ++
  (match paper.citation_count with
   | some cites => "   Citations: " ++ toString cites ++ "\n"
   | none => "") ++
  "\n"

/-- `format_search_results` from src/mcp.rs. -/
def format_search_results (results : SearchResponse) (start : Nat) : String :=
  let header := "Found " ++ toString results.num_found ++ " results:\n\n"
  let body := String.join (results.papers.enum.map (fun ie => formatResultEntry start ie.1 ie.2))
  let shown := start + results.papers.length
  header ++ body ++
    (if results.num_found > shown then
      "*Use start=" ++ toString shown ++ " to see more results*\n"
    else "")

/-- The single-paper rendering in `tool_get_paper` (src/mcp.rs). -/
def format_paper_detail (paper : Paper) : String :=
  let authors_str :=
    if paper.authors.length > 10 then
      String.intercalate "; " ((paper.authors.take 5).map (·.name)) ++
        " ... and " ++ toString (paper.authors.length - 5) ++ " more"
    else
      String.intercalate "; " (paper.authors.map (·.name))
  "# " ++ paper.title ++ "\n\n" ++
  "**Authors:** " ++ authors_str ++ "\n" ++
  "**Year:** " ++ ((paper.year.map (fun y => toString y)).getD "") ++ "\n" ++
  (match paper.publication with
   | some pub_name => "**Publication:** " ++ pub_name ++ "\n"
   | none => "") ++
  (match paper.doctype with
   | some doctype => "**Type:** " ++ doctype ++ "\n"
   | none => "") ++
  "**Bibcode:** " ++ paper.bibcode ++ "\n" ++
  (match paper.doi with
   | some doi => "**DOI:** " ++ doi ++ "\n"
   | none => "") ++
  (match paper.arxiv_id with
   | some arxiv => "**arXiv:** " ++ arxiv ++ "\n"
   | none => "") ++
  (match paper.citation_count with
   | some cites => "**Citations:** " ++ toString cites ++ "\n"
   | none => "") ++
  (if paper.properties ≠ [] then
    "**Properties:** " ++ String.intercalate ", " paper.properties ++ "\n"
  else "") ++
  (match paper.abstract_text with
   | some abstract_text => "\n**Abstract:**\n" ++ abstract_text ++ "\n"
   | none => "") ++
  (if paper.pdf_links ≠ [] then
    "\n**Links:**\n" ++ String.join (paper.pdf_links.map
      (fun link => "- [" ++ link.label ++ "](" ++ link.url ++ ")\n"))
  else "") ++
  "\n**ADS:** " ++ paper.url ++ "\n"

/-! ## Tool implementations (src/mcp.rs)

Each tool returns its `Result<String, SciXError>` together with the number
of gateway (outbound) invocations made along the executed path. -/

/-- `.iter().filter_map(|v| v.as_str()).collect()` on a JSON array. -/
def collectStrings (xs : List Json) : List String :=
  xs.filterMap Json.asStr

/-- `tool_search` from src/mcp.rs (`as u32` casts are mod `2^32`). -/
def tool_search (gw : Gateway) (args : Json) : Except SciXError String × Nat :=
  match (args.index "query").asStr with
  | none => (.error (.InvalidQuery "'query' parameter required"), 0)
  | some query =>
    let rows := (((args.index "rows").asU64).getD 10) % 2 ^ 32
    let start := (((args.index "start").asU64).getD 0) % 2 ^ 32
    let sort := (args.index "sort").asStr
    let fields := (args.index "fields").asStr
    let sort_val := sort.map (fun s =>
      let parts := splitWhitespaceRust s
      SortSpec.mk ((parts.head?).getD "date")
        (if parts.get? 1 = some "asc" then .Asc else .Desc))
    let fl := fields.getD DEFAULT_SEARCH_FIELDS
    match gw.search_with_options query fl sort_val rows start with
    | .error e => (.error e, 1)
    | .ok results => (.ok (format_search_results results start), 1)

/-- `tool_bigquery` from src/mcp.rs. -/
def tool_bigquery (gw : Gateway) (args : Json) : Except SciXError String × Nat :=
  match (args.index "bibcodes").asArray with
  | none => (.error (.InvalidQuery "'bibcodes' array required"), 0)
  | some xs =>
    let bibcodes := collectStrings xs
    let query := (args.index "query").asStr
    match gw.bigquery bibcodes query with
    | .error e => (.error e, 1)
    | .ok results => (.ok (format_search_results results 0), 1)

/-- `tool_export` from src/mcp.rs. -/
def tool_export (gw : Gateway) (args : Json) : Except SciXError String × Nat :=
  match (args.index "bibcodes").asArray with
  | none => (.error (.InvalidQuery "'bibcodes' array required"), 0)
  | some xs =>
    let bibcodes := collectStrings xs
    let format_str := ((args.index "format").asStr).getD "bibtex"
    let format := (ExportFormat.from_str_loose format_str).getD .BibTeX
    (gw.exportOp bibcodes format, 1)

/-- `tool_metrics` from src/mcp.rs. -/
def tool_metrics (gw : Gateway) (args : Json) : Except SciXError String × Nat :=
  match (args.index "bibcodes").asArray with
  | none => (.error (.InvalidQuery "'bibcodes' array required"), 0)
  | some xs =>
    let bibcodes := collectStrings xs
    ((gw.metricsOp bibcodes).map serdePretty, 1)

/-- `tool_library` from src/mcp.rs. -/
def tool_library (gw : Gateway) (args : Json) : Except SciXError String × Nat :=
  match (args.index "action").asStr with
  | none => (.error (.InvalidQuery "'action' parameter required"), 0)
  | some action =>
    match action with
    | "list" => ((gw.list_libraries ()).map serdePretty, 1)
    | "get" =>
        match (args.index "id").asStr with
        | none => (.error (.InvalidQuery "'id' required for get"), 0)
        | some id => ((gw.get_library id).map serdePretty, 1)
    | "create" =>
        match (args.index "name").asStr with
        | none => (.error (.InvalidQuery "'name' required for create"), 0)
        | some name =>
          let description := ((args.index "description").asStr).getD ""
          let pub := ((args.index "public").asBool).getD false
          ((gw.create_library name description pub).map serdePretty, 1)
    | "delete" =>
        match (args.index "id").asStr with
        | none => (.error (.InvalidQuery "'id' required for delete"), 0)
        | some id =>
          ((gw.delete_library id).map (fun _ => "Library " ++ id ++ " deleted"), 1)
    | "edit" =>
        match (args.index "id").asStr with
        | none => (.error (.InvalidQuery "'id' required for edit"), 0)
        | some id =>
          let name := (args.index "name").asStr
          let description := (args.index "description").asStr
          let pub := (args.index "public").asBool
          ((gw.edit_library id name description pub).map
            (fun _ => "Library " ++ id ++ " updated"), 1)
    | "permissions" =>
        match (args.index "id").asStr with
        | none => (.error (.InvalidQuery "'id' required for permissions"), 0)
        | some id => ((gw.get_permissions id).map serdePretty, 1)
    | "update_permissions" =>
        match (args.index "id").asStr with
        | none => (.error (.InvalidQuery "'id' required for update_permissions"), 0)
        | some id =>
          match (args.index "email").asStr with
          | none => (.error (.InvalidQuery "'email' required for update_permissions"), 0)
          | some email =>
            match (args.index "permission").asStr with
            | none => (.error (.InvalidQuery "'permission' required for update_permissions"), 0)
            | some permission =>
              ((gw.update_permissions_op id email permission).map
                (fun _ => "Permissions updated for " ++ email ++ " on library " ++ id), 1)
    | "transfer" =>
        match (args.index "id").asStr with
        | none => (.error (.InvalidQuery "'id' required for transfer"), 0)
        | some id =>
          match (args.index "email").asStr with
          | none => (.error (.InvalidQuery "'email' required for transfer"), 0)
          | some email =>
            ((gw.transfer_library id email).map
              (fun _ => "Library " ++ id ++ " transferred to " ++ email), 1)
    | _ => (.error (.InvalidQuery ("Unknown library action: " ++ action)), 0)

/-- `tool_library_documents` from src/mcp.rs. -/
def tool_library_documents (gw : Gateway) (args : Json) : Except SciXError String × Nat :=
  match (args.index "action").asStr with
  | none => (.error (.InvalidQuery "'action' parameter required"), 0)
  | some action =>
    match (args.index "library_id").asStr with
    | none => (.error (.InvalidQuery "'library_id' required"), 0)
    | some library_id =>
      match action with
      | "add" =>
          match (args.index "bibcodes").asArray with
          | none => (.error (.InvalidQuery "'bibcodes' array required"), 0)
          | some xs =>
            let bibcodes := collectStrings xs
            ((gw.add_documents library_id bibcodes).map
              (fun _ => "Added " ++ toString bibcodes.length ++ " documents"), 1)
      | "remove" =>
          match (args.index "bibcodes").asArray with
          | none => (.error (.InvalidQuery "'bibcodes' array required"), 0)
          | some xs =>
            let bibcodes := collectStrings xs
            ((gw.remove_documents library_id bibcodes).map
              (fun _ => "Removed " ++ toString bibcodes.length ++ " documents"), 1)
      | "get_notes" =>
          match (args.index "bibcode").asStr with
          | none => (.error (.InvalidQuery "'bibcode' required for get_notes"), 0)
          | some bibcode => (gw.get_annotation_op library_id bibcode, 1)
      | "add_note" | "edit_note" =>
          match (args.index "bibcode").asStr with
          | none => (.error (.InvalidQuery "'bibcode' required for add_note/edit_note"), 0)
          | some bibcode =>
            match (args.index "content").asStr with
            | none => (.error (.InvalidQuery "'content' required for add_note/edit_note"), 0)
            | some content =>
              ((gw.set_annotation_op library_id bibcode content).map
                (fun _ => "Note saved for " ++ bibcode), 1)
      | "delete_note" =>
          match (args.index "bibcode").asStr with
          | none => (.error (.InvalidQuery "'bibcode' required for delete_note"), 0)
          | some bibcode =>
            ((gw.delete_annotation_op library_id bibcode).map
              (fun _ => "Note deleted for " ++ bibcode), 1)
      | "union" | "intersection" | "difference" | "copy" | "empty" =>
          let source_ids := ((args.index "libraries").asArray).map collectStrings
          ((gw.library_operation library_id action source_ids).map serdePretty, 1)
      | "add_by_query" =>
          match (args.index "query").asStr with
          | none => (.error (.InvalidQuery "'query' required for add_by_query"), 0)
          | some query =>
            let rows := ((args.index "rows").asU64).map (· % 2 ^ 32)
            ((gw.add_documents_by_query library_id query rows).map
              (fun count => "Added " ++ toString count ++ " documents by query"), 1)
      | _ => (.error (.InvalidQuery ("Unknown document action: " ++ action)), 0)

/-- `tool_citation_helper` from src/mcp.rs. -/
def tool_citation_helper (gw : Gateway) (args : Json) : Except SciXError String × Nat :=
  match (args.index "bibcodes").asArray with
  | none => (.error (.InvalidQuery "'bibcodes' array required"), 0)
  | some xs =>
    ((gw.citation_helper (collectStrings xs)).map serdePretty, 1)

/-- `tool_network` from src/mcp.rs. -/
def tool_network (gw : Gateway) (args : Json) : Except SciXError String × Nat :=
  match (args.index "bibcodes").asArray with
  | none => (.error (.InvalidQuery "'bibcodes' array required"), 0)
  | some xs =>
    let bibcodes := collectStrings xs
    let network_type := ((args.index "type").asStr).getD "author"
    let result := match network_type with
      | "paper" => gw.paper_network bibcodes
      | _ => gw.author_network bibcodes
    (result.map serdePretty, 1)

/-- `tool_object_search` from src/mcp.rs. -/
def tool_object_search (gw : Gateway) (args : Json) : Except SciXError String × Nat :=
  match (args.index "objects").asArray with
  | none => (.error (.InvalidQuery "'objects' array required"), 0)
  | some xs =>
    ((gw.resolve_objects (collectStrings xs)).map serdePretty, 1)

/-- `tool_resolve_reference` from src/mcp.rs. -/
def tool_resolve_reference (gw : Gateway) (args : Json) : Except SciXError String × Nat :=
  match (args.index "references").asArray with
  | none => (.error (.InvalidQuery "'references' array required"), 0)
  | some xs =>
    ((gw.resolve_references (collectStrings xs)).map serdePretty, 1)

/-- `tool_resolve_links` from src/mcp.rs. -/
def tool_resolve_links (gw : Gateway) (args : Json) : Except SciXError String × Nat :=
  match (args.index "bibcode").asStr with
  | none => (.error (.InvalidQuery "'bibcode' required"), 0)
  | some bibcode =>
    let link_type := (args.index "link_type").asStr
    ((gw.resolve_links bibcode link_type).map serdePretty, 1)

/-- `tool_get_paper` from src/mcp.rs. -/
def tool_get_paper (gw : Gateway) (args : Json) : Except SciXError String × Nat :=
  match (args.index "bibcode").asStr with
  | none => (.error (.InvalidQuery "'bibcode' required"), 0)
  | some bibcode =>
    let query := "identifier:" ++ bibcode
    match gw.search_with_options query RICH_FIELDS none 1 0 with
    | .error e => (.error e, 1)
    | .ok results =>
      match results.papers with
      | [] => (.error (.NotFound ("Paper not found: " ++ bibcode)), 1)
      | paper :: _ => (.ok (format_paper_detail paper), 1)

/-! ## Tool catalog (src/mcp.rs, `tool_definitions`)

Object fields are kept in the order written in the source's `json!`
literals; serialization in this model follows that order. -/

/-- The annotation block shared by the read-only tools. -/
def annotationsReadOnly : Json :=
  .obj [("readOnlyHint", .bool true), ("destructiveHint", .bool false),
        ("idempotentHint", .bool true), ("openWorldHint", .bool true)]

/-- The annotation block shared by the library-mutating tools. -/
def annotationsMutating : Json :=
  .obj [("readOnlyHint", .bool false), ("destructiveHint", .bool false),
        ("idempotentHint", .bool false), ("openWorldHint", .bool true)]

/-- `tool_definitions` from src/mcp.rs: the fixed catalog of twelve tools. -/
def tool_definitions : Json :=
  .arr [
    .obj [
      ("name", .str "scix_search"),
      ("description", .str "Search the SciX / NASA ADS database. Supports field queries (author, title, abstract, year, etc.), boolean operators, and functional operators (citations(), references(), similar())."),
      ("inputSchema", .obj [
        ("type", .str "object"),
        ("properties", .obj [
          ("query", .obj [("type", .str "string"), ("description", .str "ADS query string (e.g., 'author:\"Einstein\" year:1905')")]),
          ("rows", .obj [("type", .str "integer"), ("description", .str "Max results (default 10)"), ("default", .num 10)]),
          ("start", .obj [("type", .str "integer"), ("description", .str "Starting index for pagination (default 0)"), ("default", .num 0)]),
          ("sort", .obj [("type", .str "string"), ("description", .str "Sort order (e.g., 'date desc', 'citation_count desc')")]),
          ("fields", .obj [("type", .str "string"), ("description", .str "Comma-separated fields to return")])]),
        ("required", .arr [.str "query"])]),
      ("annotations", annotationsReadOnly)],
    .obj [
      ("name", .str "scix_bigquery"),
      ("description", .str "Search within a set of known bibcodes. Useful for filtering a collection of papers."),
      ("inputSchema", .obj [
        ("type", .str "object"),
        ("properties", .obj [
          ("bibcodes", .obj [("type", .str "array"), ("items", .obj [("type", .str "string")]), ("description", .str "List of bibcodes to search within")]),
          ("query", .obj [("type", .str "string"), ("description", .str "Optional additional query filter")])]),
        ("required", .arr [.str "bibcodes"])]),
      ("annotations", annotationsReadOnly)],
    .obj [
      ("name", .str "scix_export"),
      ("description", .str "Export papers in citation formats (bibtex, ris, aastex, mnras, ieee, csl, etc.)."),
      ("inputSchema", .obj [
        ("type", .str "object"),
        ("properties", .obj [
          ("bibcodes", .obj [("type", .str "array"), ("items", .obj [("type", .str "string")]), ("description", .str "Bibcodes to export")]),
          ("format", .obj [("type", .str "string"), ("description", .str "Export format (bibtex, ris, aastex, mnras, ieee, csl, etc.)"), ("default", .str "bibtex")])]),
        ("required", .arr [.str "bibcodes"])]),
      ("annotations", annotationsReadOnly)],
    .obj [
      ("name", .str "scix_metrics"),
      ("description", .str "Get citation metrics (h-index, g-index, citation counts) for a set of papers."),
      ("inputSchema", .obj [
        ("type", .str "object"),
        ("properties", .obj [
          ("bibcodes", .obj [("type", .str "array"), ("items", .obj [("type", .str "string")]), ("description", .str "Bibcodes to get metrics for")])]),
        ("required", .arr [.str "bibcodes"])]),
      ("annotations", annotationsReadOnly)],
    .obj [
      ("name", .str "scix_library"),
      ("description", .str "Manage SciX personal libraries (list, get, create, edit, delete, permissions, transfer)."),
      ("inputSchema", .obj [
        ("type", .str "object"),
        ("properties", .obj [
          ("action", .obj [("type", .str "string"), ("enum", .arr [.str "list", .str "get", .str "create", .str "edit", .str "delete", .str "permissions", .str "update_permissions", .str "transfer"])]),
          ("id", .obj [("type", .str "string"), ("description", .str "Library ID (for get/edit/delete/permissions/update_permissions/transfer)")]),
          ("name", .obj [("type", .str "string"), ("description", .str "Library name (for create/edit)")]),
          ("description", .obj [("type", .str "string"), ("description", .str "Library description (for create/edit)")]),
          ("public", .obj [("type", .str "boolean"), ("description", .str "Public visibility (for create/edit)")]),
          ("email", .obj [("type", .str "string"), ("description", .str "Collaborator email (for update_permissions/transfer)")]),
          ("permission", .obj [("type", .str "string"), ("description", .str "Permission level: owner, admin, write, read (for update_permissions)"), ("enum", .arr [.str "owner", .str "admin", .str "write", .str "read"])])]),
        ("required", .arr [.str "action"])]),
      ("annotations", annotationsMutating)],
    .obj [
      ("name", .str "scix_library_documents"),
      ("description", .str "Manage documents in a SciX library: add/remove bibcodes, notes, set operations (union/intersection/difference/copy/empty), or add by search query."),
      ("inputSchema", .obj [
        ("type", .str "object"),
        ("properties", .obj [
          ("action", .obj [("type", .str "string"), ("enum", .arr [.str "add", .str "remove", .str "get_notes", .str "add_note", .str "edit_note", .str "delete_note", .str "union", .str "intersection", .str "difference", .str "copy", .str "empty", .str "add_by_query"])]),
          ("library_id", .obj [("type", .str "string"), ("description", .str "Library ID")]),
          ("bibcodes", .obj [("type", .str "array"), ("items", .obj [("type", .str "string")]), ("description", .str "Bibcodes to add/remove")]),
          ("bibcode", .obj [("type", .str "string"), ("description", .str "Single bibcode (for note operations)")]),
          ("content", .obj [("type", .str "string"), ("description", .str "Note content (for add_note/edit_note)")]),
          ("libraries", .obj [("type", .str "array"), ("items", .obj [("type", .str "string")]), ("description", .str "Source library IDs (for set operations: union/intersection/difference/copy)")]),
          ("query", .obj [("type", .str "string"), ("description", .str "Search query (for add_by_query)")]),
          ("rows", .obj [("type", .str "integer"), ("description", .str "Max documents to add by query (default 50)")])]),
        ("required", .arr [.str "action", .str "library_id"])]),
      ("annotations", annotationsMutating)],
    .obj [
      ("name", .str "scix_citation_helper"),
      ("description", .str "Find papers frequently co-cited with the given set but not yet included."),
      ("inputSchema", .obj [
        ("type", .str "object"),
        ("properties", .obj [
          ("bibcodes", .obj [("type", .str "array"), ("items", .obj [("type", .str "string")]), ("description", .str "Bibcodes for co-citation analysis")])]),
        ("required", .arr [.str "bibcodes"])]),
      ("annotations", annotationsReadOnly)],
    .obj [
      ("name", .str "scix_network"),
      ("description", .str "Get author collaboration or paper citation network data."),
      ("inputSchema", .obj [
        ("type", .str "object"),
        ("properties", .obj [
          ("bibcodes", .obj [("type", .str "array"), ("items", .obj [("type", .str "string")]), ("description", .str "Bibcodes for network analysis")]),
          ("type", .obj [("type", .str "string"), ("enum", .arr [.str "author", .str "paper"]), ("description", .str "Network type"), ("default", .str "author")])]),
        ("required", .arr [.str "bibcodes"])]),
      ("annotations", annotationsReadOnly)],
    .obj [
      ("name", .str "scix_object_search"),
      ("description", .str "Resolve astronomical object names (M31, NGC 1234, Crab Nebula) via SIMBAD/NED."),
      ("inputSchema", .obj [
        ("type", .str "object"),
        ("properties", .obj [
          ("objects", .obj [("type", .str "array"), ("items", .obj [("type", .str "string")]), ("description", .str "Object names to resolve")])]),
        ("required", .arr [.str "objects"])]),
      ("annotations", annotationsReadOnly)],
    .obj [
      ("name", .str "scix_resolve_reference"),
      ("description", .str "Resolve free-text references to bibcodes (e.g., 'Einstein 1905 Annalen der Physik 17 891')."),
      ("inputSchema", .obj [
        ("type", .str "object"),
        ("properties", .obj [
          ("references", .obj [("type", .str "array"), ("items", .obj [("type", .str "string")]), ("description", .str "Free-text reference strings")])]),
        ("required", .arr [.str "references"])]),
      ("annotations", annotationsReadOnly)],
    .obj [
      ("name", .str "scix_resolve_links"),
      ("description", .str "Resolve links for a paper (full-text, datasets, citations, references)."),
      ("inputSchema", .obj [
        ("type", .str "object"),
        ("properties", .obj [
          ("bibcode", .obj [("type", .str "string"), ("description", .str "Paper bibcode")]),
          ("link_type", .obj [("type", .str "string"), ("enum", .arr [.str "esource", .str "data", .str "citation", .str "reference", .str "coreads"]), ("description", .str "Specific link type (optional)")])]),
        ("required", .arr [.str "bibcode"])]),
      ("annotations", annotationsReadOnly)],
    .obj [
      ("name", .str "scix_get_paper"),
      ("description", .str "Get detailed metadata for a single paper by bibcode, including abstract, affiliations, keywords, and links."),
      ("inputSchema", .obj [
        ("type", .str "object"),
        ("properties", .obj [
          ("bibcode", .obj [("type", .str "string"), ("description", .str "Paper bibcode")])]),
        ("required", .arr [.str "bibcode"])]),
      ("annotations", annotationsReadOnly)]]

/-! ## Reference documents (src/mcp.rs) -/

/-- `FIELDS_REFERENCE` from src/mcp.rs. -/
def FIELDS_REFERENCE : String :=
  "SciX Searchable Fields\n======================\n\nCommon search fields:\n  author       - Author name (e.g., author:\"Einstein, A.\")\n  first_author - First author only\n  title        - Title words\n  abs          - Abstract words\n  year         - Publication year (e.g., year:2023 or year:[2020 TO 2023])\n  bibcode      - ADS bibcode\n  doi          - Digital Object Identifier\n  identifier   - Any identifier (DOI, arXiv, bibcode)\n  bibstem      - Journal abbreviation (e.g., bibstem:ApJ)\n  object       - Astronomical object name\n  orcid        - Author ORCID\n  keyword      - Keywords\n  full         - Full text search\n  property     - Paper properties (refereed, openaccess, etc.)\n  doctype      - Document type (article, inproceedings, etc.)\n\nCommon returnable fields:\n  bibcode, title, author, year, pub, abstract, doi, identifier,\n  doctype, esources, citation_count, reference, property, aff,\n  orcid_pub, keyword, volume, page, read_count\n"

/-- `SYNTAX_REFERENCE` from src/mcp.rs. -/
def SYNTAX_REFERENCE : String :=
  "SciX Query Syntax Guide\n=======================\n\nField queries:\n  author:\"Einstein\"           - Author search\n  title:\"dark matter\"         - Title search\n  year:2023                   - Exact year\n  year:[2020 TO 2023]         - Year range\n\nBoolean operators:\n  term1 AND term2             - Both terms\n  term1 OR term2              - Either term\n  NOT term                    - Exclude term\n  (term1 OR term2) AND term3  - Grouping\n\nFunctional operators:\n  citations(bibcode:XXX)      - Papers citing XXX\n  references(bibcode:XXX)     - Papers referenced by XXX\n  similar(bibcode:XXX)        - Content-similar papers\n  trending(bibcode:XXX)       - Trending co-reads\n  reviews(bibcode:XXX)        - Review articles\n\nWildcards:\n  author:\"Eins*\"              - Prefix matching\n  title:galax?                - Single character wildcard\n\nProperties:\n  property:refereed           - Refereed papers only\n  property:openaccess         - Open access papers\n  property:nonarticle         - Non-article documents\n\nSort options:\n  date desc                   - Newest first (default)\n  citation_count desc         - Most cited first\n  score desc                  - Best match first\n  read_count desc             - Most read first\n"

/-! ## Protocol handlers and loop (src/mcp.rs, `run_server`) -/

/-- The initialize handshake handler from src/mcp.rs (named here
`handle_init`). -/
def handle_init (id : Json) : Json :=
  .obj [("jsonrpc", .str "2.0"), ("id", id),
        ("result", .obj [
          ("protocolVersion", .str "2024-11-05"),
          ("capabilities", .obj [("tools", .obj []), ("resources", .obj [])]),
          ("serverInfo", .obj [("name", .str "scix-mcp"),
                               ("version", .str CARGO_PKG_VERSION)])])]

/-- `handle_tools_list` from src/mcp.rs. -/
def handle_tools_list (id : Json) : Json :=
  .obj [("jsonrpc", .str "2.0"), ("id", id),
        ("result", .obj [("tools", tool_definitions)])]

/-- `handle_resources_list` from src/mcp.rs. -/
def handle_resources_list (id : Json) : Json :=
  .obj [("jsonrpc", .str "2.0"), ("id", id),
        ("result", .obj [("resources", .arr [
          .obj [("uri", .str "scix://fields"),
                ("name", .str "SciX Searchable Fields"),
                ("description", .str "List of searchable and returnable fields in ADS"),
                ("mimeType", .str "text/plain")],
          .obj [("uri", .str "scix://syntax"),
                ("name", .str "SciX Query Syntax"),
                ("description", .str "Guide to ADS query syntax"),
                ("mimeType", .str "text/plain")]])])]

/-- `handle_resource_read` from src/mcp.rs. -/
def handle_resource_read (id : Json) (params : Json) : Json :=
  let uri := ((params.index "uri").asStr).getD ""
  match uri with
  | "scix://fields" =>
      .obj [("jsonrpc", .str "2.0"), ("id", id),
            ("result", .obj [("contents", .arr [
              .obj [("uri", .str uri), ("mimeType", .str "text/plain"),
                    ("text", .str FIELDS_REFERENCE)]])])]
  | "scix://syntax" =>
      .obj [("jsonrpc", .str "2.0"), ("id", id),
            ("result", .obj [("contents", .arr [
              .obj [("uri", .str uri), ("mimeType", .str "text/plain"),
                    ("text", .str SYNTAX_REFERENCE)]])])]
  | _ =>
      .obj [("jsonrpc", .str "2.0"), ("id", id),
            ("error", .obj [("code", .num (-32602)),
                            ("message", .str ("Unknown resource: " ++ uri))])]

/-- The `match tool_name` dispatch inside `handle_tool_call`. -/
def dispatch_tool (gw : Gateway) (tool_name : String) (args : Json) :
    Except SciXError String × Nat :=
  match tool_name with
  | "scix_search" => tool_search gw args
  | "scix_bigquery" => tool_bigquery gw args
  | "scix_export" => tool_export gw args
  | "scix_metrics" => tool_metrics gw args
  | "scix_library" => tool_library gw args
  | "scix_library_documents" => tool_library_documents gw args
  | "scix_citation_helper" => tool_citation_helper gw args
  | "scix_network" => tool_network gw args
  | "scix_object_search" => tool_object_search gw args
  | "scix_resolve_reference" => tool_resolve_reference gw args
  | "scix_resolve_links" => tool_resolve_links gw args
  | "scix_get_paper" => tool_get_paper gw args
  | _ => (.error (.Config ("Unknown tool: " ++ tool_name)), 0)

/-- `handle_tool_call` from src/mcp.rs: dispatch, then wrap the tool's
`Result` as a protocol-level success response whose content carries either
the text payload or an error marker with the error's display text.  Also
returns the number of outbound gateway calls made. -/
def handle_tool_call (gw : Gateway) (id : Json) (params : Json) : Json × Nat :=
  let tool_name := ((params.index "name").asStr).getD ""
  let args := params.index "arguments"
  let (result, calls) := dispatch_tool gw tool_name args
  (match result with
   | .ok content =>
      .obj [("jsonrpc", .str "2.0"), ("id", id),
            ("result", .obj [("content", .arr [
              .obj [("type", .str "text"), ("text", .str content)]])])]
   | .error e =>
      .obj [("jsonrpc", .str "2.0"), ("id", id),
            ("result", .obj [("content", .arr [
              .obj [("type", .str "text"), ("text", .str ("Error: " ++ e.display))]]),
              ("isError", .bool true)])],
   calls)

/-- The parse-error response emitted by `run_server` for a line that is
not valid JSON. -/
def parseErrorResponse (e : String) : Json :=
  .obj [("jsonrpc", .str "2.0"), ("id", .null),
        ("error", .obj [("code", .num (-32700)),
                        ("message", .str ("Parse error: " ++ e))])]

/-- The method-not-found response emitted by `run_server` for an
unrecognized method. -/
def methodNotFoundResponse (id : Json) (method : String) : Json :=
  .obj [("jsonrpc", .str "2.0"), ("id", id),
        ("error", .obj [("code", .num (-32601)),
                        ("message", .str ("Method not found: " ++ method))])]

/-- The routing step of `run_server` on a successfully parsed request:
`id` extraction (`request.get("id").cloned().unwrap_or(Value::Null)`),
`method` extraction (`request["method"].as_str().unwrap_or("")`), and the
method dispatch.  `none` for the two notification methods, which consume
no response. -/
def handleRequest (gw : Gateway) (request : Json) : Option Json :=
  let id := (request.get "id").getD .null
  let method := ((request.index "method").asStr).getD ""
  match method with
  | "initialize" => some (handle_init id)
  | "tools/list" => some (handle_tools_list id)
  | "tools/call" => some (handle_tool_call gw id (request.index "params")).1
  | "resources/list" => some (handle_resources_list id)
  | "resources/read" => some (handle_resource_read id (request.index "params"))
  | "notifications/initialized" | "notifications/cancelled" => none
  | _ => some (methodNotFoundResponse id method)

/-- One iteration of the `run_server` loop on one input line, with
serde_json's text decoder abstracted as `decode`.  `none` means no
response line is written for this input line. -/
def processLine (gw : Gateway) (decode : String → Except String Json)
    (line : String) : Option Json :=
  if trimIsEmpty line then none
  else
    match decode line with
    | .error e => some (parseErrorResponse e)
    | .ok request => handleRequest gw request

/-- `run_server` from src/mcp.rs over a finite input stream: one response
value per non-skipped line, in input order (the reference loop handles one
request fully before reading the next line). -/
def run_server (gw : Gateway) (decode : String → Except String Json)
    (lines : List String) : List Json :=
  lines.filterMap (processLine gw decode)

/-! ## Concrete stubs for witnesses -/

/-- A stub gateway for concrete witnesses: every operation fails with a
sentinel configuration error. -/
def gwStub : Gateway where
  search_with_options := fun _ _ _ _ _ => .error (.Config "stub")
  bigquery := fun _ _ => .error (.Config "stub")
  exportOp := fun _ _ => .error (.Config "stub")
  metricsOp := fun _ => .error (.Config "stub")
  list_libraries := fun _ => .error (.Config "stub")
  get_library := fun _ => .error (.Config "stub")
  create_library := fun _ _ _ => .error (.Config "stub")
  delete_library := fun _ => .error (.Config "stub")
  edit_library := fun _ _ _ _ => .error (.Config "stub")
  get_permissions := fun _ => .error (.Config "stub")
  update_permissions_op := fun _ _ _ => .error (.Config "stub")
  transfer_library := fun _ _ => .error (.Config "stub")
  add_documents := fun _ _ => .error (.Config "stub")
  remove_documents := fun _ _ => .error (.Config "stub")
  get_annotation_op := fun _ _ => .error (.Config "stub")
  set_annotation_op := fun _ _ _ => .error (.Config "stub")
  delete_annotation_op := fun _ _ => .error (.Config "stub")
  library_operation := fun _ _ _ => .error (.Config "stub")
  add_documents_by_query := fun _ _ _ => .error (.Config "stub")
  citation_helper := fun _ => .error (.Config "stub")
  author_network := fun _ => .error (.Config "stub")
  paper_network := fun _ => .error (.Config "stub")
  resolve_objects := fun _ => .error (.Config "stub")
  resolve_references := fun _ => .error (.Config "stub")
  resolve_links := fun _ _ => .error (.Config "stub")

/-- A stub JSON text decoder that rejects every line, standing in for
serde_json on malformed input in concrete witnesses. -/
def decodeStub : String → Except String Json :=
  fun _ => .error "expected value"

/-! # Theorems -/

/-- C1: for every HTTP response, the Transport Adapter's classification
is exactly: 200-299 success with the body verbatim; 401 unauthorized;
404 not-found; 429 rate-limited carrying a retry-after duration parsed
from the retry-after header when present (absent otherwise); any other
status upstream-error with the numeric status and raw body; and a network
failure before any status yields a transport failure. -/
theorem transport_outcome_classification (r : HttpResponse) (m : String) :
    (200 ≤ r.status ∧ r.status ≤ 299 → handle_response r = .ok r.body)
    ∧ (r.status = 401 → handle_response r = .error .AuthRequired)
    ∧ (r.status = 404 → handle_response r = .error (.NotFound "Resource not found"))
    ∧ (r.status = 429 →
        handle_response r = .error (.RateLimited (parseRetryAfter r.headers)))
    ∧ (¬(200 ≤ r.status ∧ r.status ≤ 299) → r.status ≠ 401 → r.status ≠ 404 →
        r.status ≠ 429 → handle_response r = .error (.Api r.status r.body))
    ∧ (headerGet r.headers "retry-after" = none → parseRetryAfter r.headers = none)
    ∧ executeOutcome (.netFailure m) = .error (.Http m) := by
  refine ⟨?_, ?_, ?_, ?_, ?_, ?_, rfl⟩
  · intro h
    simp [handle_response, h]
  · intro h
    simp [handle_response, h]
  · intro h
    simp [handle_response, h]
  · intro h
    simp [handle_response, h]
  · intro h1 h2 h3 h4
    simp [handle_response, h1, h2, h3, h4]
  · intro h
    simp [parseRetryAfter, h]

/-- Witness for C1: the spec's concrete examples — 429 with retry-after
"7" yields rate-limited with a 7-second hint, 500 with body "oops" yields
upstream-error 500 "oops", 404 not-found, 401 unauthorized. -/
theorem transport_outcome_classification_witness :
    handle_response ⟨429, [("retry-after", "7")], ""⟩ =
      .error (.RateLimited (some 7))
    ∧ handle_response ⟨500, [], "oops"⟩ = .error (.Api 500 "oops")
    ∧ handle_response ⟨404, [], ""⟩ = .error (.NotFound "Resource not found")
    ∧ handle_response ⟨401, [], ""⟩ = .error .AuthRequired := by
  have h429 := (transport_outcome_classification ⟨429, [("retry-after", "7")], ""⟩ "").2.2.2.1 rfl
  have h500 := (transport_outcome_classification ⟨500, [], "oops"⟩ "").2.2.2.2.1
    (by decide) (by decide) (by decide) (by decide)
  have h404 := (transport_outcome_classification ⟨404, [], ""⟩ "").2.2.1 rfl
  have h401 := (transport_outcome_classification ⟨401, [], ""⟩ "").2.1 rfl
  refine ⟨?_, h500, h404, h401⟩
  rw [h429]
  have : parseRetryAfter [("retry-after", "7")] = some 7 := by decide
  rw [this]

/-- The local-spacing check never moves the admission time backwards. -/
theorem localAdmitTime_ge (st : RLState) (t : Rat) : t ≤ localAdmitTime st t := by
  unfold localAdmitTime
  cases h : st.last_request with
  | none => exact le_refl t
  | some last =>
    simp only
    split
    · linarith [show t - last < 1 / st.max_per_second by assumption]
    · exact le_refl t

/-- The server-window check never moves the admission time backwards. -/
theorem serverAdmitTime_ge (st : RLState) (t : Rat) : t ≤ serverAdmitTime st t := by
  unfold serverAdmitTime
  cases hr : st.server_remaining with
  | none => exact le_refl t
  | some remaining =>
    cases hs : st.server_reset with
    | none => exact le_refl t
    | some reset =>
      simp only
      split
      · next h => linarith [h.2]
      · exact le_refl t

/-- C2: with a recorded server remaining-count of 0 and a reset time T in
the future, the next admission does not occur before T and consists of the
local-spacing check reapplied at T (server window first, then local
spacing); an admission attempted at or after T with no further observation
is not delayed by the expired server window; and admission never yields a
negative wait. -/
theorem governor_server_window (st : RLState) (now T now2 : Rat)
    (h0 : st.server_remaining = some 0) (hr : st.server_reset = some T)
    (hlt : now < T) (h2 : T ≤ now2) :
    T ≤ (acquire st now).2
    ∧ (acquire st now).2 = localAdmitTime st T
    ∧ serverAdmitTime st now2 = now2
    ∧ (∀ s t, t ≤ (acquire s t).2) := by
  have hserver : serverAdmitTime st now = T := by
    unfold serverAdmitTime
    rw [h0, hr]
    simp [hlt]
  refine ⟨?_, ?_, ?_, ?_⟩
  · show T ≤ localAdmitTime st (serverAdmitTime st now)
    rw [hserver]
    exact localAdmitTime_ge st T
  · show localAdmitTime st (serverAdmitTime st now) = localAdmitTime st T
    rw [hserver]
  · unfold serverAdmitTime
    rw [h0, hr]
    simp
    intro h
    linarith
  · intro s t
    calc t ≤ serverAdmitTime s t := serverAdmitTime_ge s t
    _ ≤ localAdmitTime s (serverAdmitTime s t) := localAdmitTime_ge s _

/-- Witness for C2: ceiling 1 req/s, last admission at time 0, server
quota exhausted until T = 10; an acquire at time 3 is admitted exactly at
10, and at time 11 the server window no longer delays. -/
theorem governor_server_window_witness :
    (acquire ⟨1, some 0, some 0, some 10⟩ 3).2 = 10
    ∧ serverAdmitTime ⟨1, some 0, some 0, some 10⟩ 11 = 11 := by
  have h := governor_server_window ⟨1, some 0, some 0, some 10⟩ 3 10 11
    rfl rfl (by norm_num) (by norm_num)
  refine ⟨?_, h.2.2.1⟩
  rw [h.2.1]
  show localAdmitTime ⟨1, some 0, some 0, some 10⟩ 10 = 10
  unfold localAdmitTime
  norm_num

/-- C7: `update_from_headers` leaves `server_remaining` (resp.
`server_reset`) unchanged when the corresponding header field is missing
or unparseable; a stored value is only ever overwritten by a present,
parseable field (for the reset time, one strictly in the future); the
other state fields are never touched.  The operation is total: it never
fails. -/
theorem observe_sticky (st : RLState) (hs : Headers) (nowUnix : Nat) (nowInst : Rat) :
    (parseRemainingHeader hs = none →
      (update_from_headers st hs nowUnix nowInst).server_remaining = st.server_remaining)
    ∧ (parseResetHeader hs = none →
      (update_from_headers st hs nowUnix nowInst).server_reset = st.server_reset)
    ∧ ((update_from_headers st hs nowUnix nowInst).server_remaining = st.server_remaining
        ∨ ∃ r, parseRemainingHeader hs = some r
            ∧ (update_from_headers st hs nowUnix nowInst).server_remaining = some r)
    ∧ ((update_from_headers st hs nowUnix nowInst).server_reset = st.server_reset
        ∨ ∃ v, parseResetHeader hs = some v ∧ v > nowUnix
            ∧ (update_from_headers st hs nowUnix nowInst).server_reset
                = some (nowInst + ((v : Rat) - (nowUnix : Rat))))
    ∧ (update_from_headers st hs nowUnix nowInst).max_per_second = st.max_per_second
    ∧ (update_from_headers st hs nowUnix nowInst).last_request = st.last_request := by
  unfold update_from_headers
  cases hrem : parseRemainingHeader hs <;> cases hres : parseResetHeader hs
  · simp
  · next v =>
    simp only
    by_cases hv : v > nowUnix
    · simp [hv]
    · simp [hv]
  · simp
  · next r v =>
    simp only
    by_cases hv : v > nowUnix
    · simp [hv]
    · simp [hv]

/-- Witness for C7: headers with an unparseable remaining count and no
reset field leave both stored fields unchanged. -/
theorem observe_sticky_witness :
    (update_from_headers ⟨5, none, some 3, some 7⟩
        [("x-ratelimit-remaining", "soon")] 100 2).server_remaining = some 3
    ∧ (update_from_headers ⟨5, none, some 3, some 7⟩
        [("x-ratelimit-remaining", "soon")] 100 2).server_reset = some 7 := by
  have h := observe_sticky ⟨5, none, some 3, some 7⟩
    [("x-ratelimit-remaining", "soon")] 100 2
  exact ⟨h.1 (by decide), h.2.1 (by decide)⟩

/-- C3: a non-blank input line that the JSON decoder rejects produces
exactly one response, carrying id null and the parse-error code -32700,
prepended to the unchanged processing of the remaining lines: a malformed
line never terminates the loop. -/
theorem malformed_line_one_response (gw : Gateway)
    (decode : String → Except String Json) (line : String)
    (rest : List String) (e : String)
    (hblank : trimIsEmpty line = false) (hdec : decode line = .error e) :
    run_server gw decode (line :: rest)
      = parseErrorResponse e :: run_server gw decode rest
    ∧ (parseErrorResponse e).index "id" = Json.null
    ∧ ((parseErrorResponse e).index "error").index "code" = Json.num (-32700) := by
  refine ⟨?_, rfl, rfl⟩
  unfold run_server
  rw [List.filterMap_cons]
  have : processLine gw decode line = some (parseErrorResponse e) := by
    unfold processLine
    rw [hblank, hdec]
    simp
  rw [this]

/-- Witness for C3: with a decoder that rejects the line, the server
emits the parse-error response and then processes the next line. -/
theorem malformed_line_one_response_witness :
    run_server gwStub decodeStub ["not json", "also not json"]
      = parseErrorResponse "expected value"
          :: run_server gwStub decodeStub ["also not json"] :=
  (malformed_line_one_response gwStub decodeStub "not json" ["also not json"]
    "expected value" (by decide) rfl).1

/-- C10: an input line that is empty or all whitespace produces no
response at all — the loop silently proceeds to the next line. -/
theorem blank_line_no_response (gw : Gateway)
    (decode : String → Except String Json) (line : String)
    (rest : List String) (hblank : trimIsEmpty line = true) :
    run_server gw decode (line :: rest) = run_server gw decode rest := by
  unfold run_server
  rw [List.filterMap_cons]
  have : processLine gw decode line = none := by
    unfold processLine
    rw [hblank]
    simp
  rw [this]

/-- Witness for C10: the empty line and a tab-space line are both
skipped without any response. -/
theorem blank_line_no_response_witness :
    run_server gwStub decodeStub ["", " \t ", "x"]
      = run_server gwStub decodeStub ["x"] := by
  rw [blank_line_no_response gwStub decodeStub "" [" \t ", "x"] (by decide)]
  exact blank_line_no_response gwStub decodeStub " \t " ["x"] (by decide)

/-- The tool-call response always carries the dispatcher's id, whether the
tool succeeded or failed. -/
theorem handle_tool_call_id (gw : Gateway) (id params : Json) :
    ((handle_tool_call gw id params).1).index "id" = id := by
  unfold handle_tool_call
  cases h : dispatch_tool gw (((params.index "name").asStr).getD "")
      (params.index "arguments") with
  | mk result calls =>
    simp only [h]
    cases result <;> rfl

/-- The resource-read response always carries the request id, on all
three uri branches. -/
theorem handle_resource_read_id (id params : Json) :
    (handle_resource_read id params).index "id" = id := by
  unfold handle_resource_read
  dsimp only
  split <;> rfl

/-- Counterexample to C6 as stated: a request whose id is a JSON array
(not a scalar or null) receives a response echoing that array as its id,
not null. -/
theorem request_id_invalid_not_null :
    handleRequest gwStub (Json.obj [("id", Json.arr []), ("method", Json.str "nope")])
      = some (methodNotFoundResponse (Json.arr []) "nope")
    ∧ (methodNotFoundResponse (Json.arr []) "nope").index "id" = Json.arr []
    ∧ Json.arr [] ≠ Json.null :=
  ⟨rfl, rfl, fun h => Json.noConfusion h⟩

/-- C6 (amended): the id of every emitted response equals
`request.get("id")` defaulted to null — an absent id (or a request that
is not an object) is treated as null, while a present id of any JSON
type, scalar or not, is echoed unchanged. -/
theorem request_id_extraction (gw : Gateway) (request resp : Json)
    (h : handleRequest gw request = some resp) :
    resp.index "id" = (request.get "id").getD Json.null := by
  unfold handleRequest at h
  dsimp only at h
  split at h <;>
    first
      | exact Option.noConfusion h
      | (injection h with h; subst h;
         first
           | rfl
           | exact handle_tool_call_id gw _ _
           | exact handle_resource_read_id _ _)

/-- Witness for the amended C6: a string id is echoed; it equals the
defaulted extraction from the request. -/
theorem request_id_extraction_witness :
    (methodNotFoundResponse (Json.str "a") "nope").index "id"
      = ((Json.obj [("id", Json.str "a"), ("method", Json.str "nope")]).get "id").getD
          Json.null :=
  request_id_extraction gwStub
    (Json.obj [("id", Json.str "a"), ("method", Json.str "nope")])
    (methodNotFoundResponse (Json.str "a") "nope") rfl

/-- Counterexample to C4 as stated: `bibcodes` is declared as
array-of-string and is required for the bigquery tool, yet an array
containing a non-string is not rejected — the non-string element is
silently dropped and an outbound call is still made (call count 1, with
the stub gateway's result, not an invalid-input outcome). -/
theorem tool_arg_shape_counterexample :
    tool_bigquery gwStub (Json.obj [("bibcodes", Json.arr [Json.num 1])])
      = (.error (.Config "stub"), 1) := rfl

/-- C4 (amended): a required argument that is missing or whose top-level
JSON type differs from the declared one (non-string `query` for search,
non-array `bibcodes` for bigquery) produces an invalid-input outcome with
no outbound call; but an array-typed required argument whose elements are
mistyped passes validation and one outbound call is made. -/
theorem tool_required_arg_validation (gw : Gateway) (args1 args2 args3 : Json)
    (xs : List Json)
    (h1 : (args1.index "query").asStr = none)
    (h2 : (args2.index "bibcodes").asArray = none)
    (h3 : (args3.index "bibcodes").asArray = some xs) :
    tool_search gw args1 = (.error (.InvalidQuery "'query' parameter required"), 0)
    ∧ tool_bigquery gw args2 = (.error (.InvalidQuery "'bibcodes' array required"), 0)
    ∧ (tool_bigquery gw args3).2 = 1 := by
  refine ⟨?_, ?_, ?_⟩
  · unfold tool_search
    rw [h1]
  · unfold tool_bigquery
    rw [h2]
  · unfold tool_bigquery
    rw [h3]
    dsimp only
    split <;> rfl

/-- Witness for the amended C4: empty argument objects are rejected with
no call; a mistyped-element array still triggers one call. -/
theorem tool_required_arg_validation_witness :
    tool_search gwStub (Json.obj []) = (.error (.InvalidQuery "'query' parameter required"), 0)
    ∧ tool_bigquery gwStub (Json.obj []) = (.error (.InvalidQuery "'bibcodes' array required"), 0)
    ∧ (tool_bigquery gwStub (Json.obj [("bibcodes", Json.arr [Json.num 1])])).2 = 1 :=
  tool_required_arg_validation gwStub (Json.obj []) (Json.obj [])
    (Json.obj [("bibcodes", Json.arr [Json.num 1])]) [Json.num 1] rfl rfl rfl

/-- Counterexample to C5 as stated: the unknown-tool outcome is a
configuration-error (`SciXError::Config`), not an invalid-input
outcome. -/
theorem unknown_tool_config_not_invalid_input :
    (dispatch_tool gwStub "scix_frobnicate" (Json.obj [])).1
      = .error (.Config "Unknown tool: scix_frobnicate")
    ∧ (Except.error (SciXError.Config "Unknown tool: scix_frobnicate")
        : Except SciXError String)
      ≠ .error (.InvalidQuery "Unknown tool: scix_frobnicate") :=
  ⟨rfl, fun h => by injection h with h2; exact SciXError.noConfusion h2⟩

/-- C5 (amended): a tools/call naming a tool outside the fixed set yields
a protocol-level success response (a `result`, not a protocol `error`)
whose content carries the failure marker `isError: true` and a message
naming the unknown tool, the outcome being classified as a
configuration-error; no outbound call is made. -/
theorem unknown_tool_protocol_success (gw : Gateway) (id params : Json) (tn : String)
    (hname : (params.index "name").asStr = some tn)
    (hunknown : tn ∉ (["scix_search", "scix_bigquery", "scix_export", "scix_metrics",
      "scix_library", "scix_library_documents", "scix_citation_helper", "scix_network",
      "scix_object_search", "scix_resolve_reference", "scix_resolve_links",
      "scix_get_paper"] : List String)) :
    handle_tool_call gw id params
      = (.obj [("jsonrpc", .str "2.0"), ("id", id),
          ("result", .obj [("content", .arr [
            .obj [("type", .str "text"),
                  ("text", .str ("Error: " ++ ("Configuration error: "
                    ++ ("Unknown tool: " ++ tn))))]]),
            ("isError", .bool true)])], 0) := by
  have hd : dispatch_tool gw tn (params.index "arguments")
      = (.error (.Config ("Unknown tool: " ++ tn)), 0) := by
    unfold dispatch_tool
    split
    all_goals first
      | rfl
      | simp at hunknown
  unfold handle_tool_call
  rw [hname]
  dsimp only [Option.getD]
  rw [hd]
  rfl

/-- Witness for the amended C5: calling the nonexistent tool
"scix_frobnicate" produces the protocol-level success envelope with the
error marker and message, and no outbound call. -/
theorem unknown_tool_protocol_success_witness :
    handle_tool_call gwStub Json.null
        (Json.obj [("name", Json.str "scix_frobnicate")])
      = (.obj [("jsonrpc", .str "2.0"), ("id", Json.null),
          ("result", .obj [("content", .arr [
            .obj [("type", .str "text"),
                  ("text", .str ("Error: " ++ ("Configuration error: "
                    ++ ("Unknown tool: " ++ "scix_frobnicate"))))]]),
            ("isError", .bool true)])], 0) :=
  unknown_tool_protocol_success gwStub Json.null
    (Json.obj [("name", Json.str "scix_frobnicate")]) "scix_frobnicate" rfl (by decide)

/-- Routing a request whose method is "tools/list" always yields the
catalog response for the request's (defaulted) id. -/
theorem handleRequest_tools_list (gw : Gateway) (req : Json)
    (hm : (req.index "method").asStr = some "tools/list") :
    handleRequest gw req = some (handle_tools_list ((req.get "id").getD Json.null)) := by
  unfold handleRequest
  dsimp only
  rw [hm]
  rfl

/-- C9: two tools/list invocations within one process lifetime with equal
ids produce responses that are byte-identical once serialized. -/
theorem tools_list_idempotent (gw : Gateway) (req1 req2 r1 r2 : Json)
    (hm1 : (req1.index "method").asStr = some "tools/list")
    (hm2 : (req2.index "method").asStr = some "tools/list")
    (hid : req1.get "id" = req2.get "id")
    (h1 : handleRequest gw req1 = some r1)
    (h2 : handleRequest gw req2 = some r2) :
    r1.serialize = r2.serialize := by
  rw [handleRequest_tools_list gw req1 hm1] at h1
  rw [handleRequest_tools_list gw req2 hm2] at h2
  injection h1 with h1
  injection h2 with h2
  subst h1
  subst h2
  rw [hid]

/-- Witness for C9: two identical tools/list requests through the stub
gateway serialize to the same bytes. -/
theorem tools_list_idempotent_witness :
    (handle_tools_list Json.null).serialize = (handle_tools_list Json.null).serialize :=
  tools_list_idempotent gwStub (Json.obj [("method", Json.str "tools/list")])
    (Json.obj [("method", Json.str "tools/list")])
    (handle_tools_list Json.null) (handle_tools_list Json.null)
    rfl rfl rfl rfl rfl

/-- C8 fails on the code (the spec is the evident intent, the code a
slip): after a local-spacing sleep, `acquire` re-locks and records its
admission *without re-checking* the spacing against the meanwhile-updated
`last_request`.  Two callers that both observed the same `last_request`
before sleeping are both admitted at the same instant.  Concretely, with
ceiling R = 1 req/s and three concurrent acquires from a fresh limiter:
task 0 is admitted at t=0; tasks 1 and 2 both read `last_request = 0`,
both sleep until t=1, and both are admitted at t=1.  The wall-clock span
from the first to the third admission is 1 s, below the (N-1)/R = 2 s
the claim requires. -/
theorem governor_concurrent_spacing_violation :
    runSched
      { now := 0,
        inner := { max_per_second := 1, last_request := none,
                   server_remaining := none, server_reset := none },
        tasks := [.ready, .ready, .ready] }
      [.run 0, .run 1, .run 2, .advance 1, .run 1, .run 2]
      = some
      { now := 1,
        inner := { max_per_second := 1, last_request := some 1,
                   server_remaining := none, server_reset := none },
        tasks := [.finished 0, .finished 1, .finished 1] }
    ∧ ((1 : Rat) - 0) < (3 - 1) / 1 := by
  constructor
  · norm_num [runSched, schedStep, taskStep, localPhase, List.get?, List.set]
  · norm_num

end Scix
